import Mathlib

/-!
Verification of `flask_robot_trigger` (`src/app.py`).

The file shallowly embeds the Python source: the flow registry
(`load_flows` / `resolve_env_variables`), the per-IP sliding-window rate
limiter (`check_rate_limit`), the CSV audit logger (`log_trigger`) and the
trigger dispatcher (`trigger_flow`).  Python strings are Lean `String`s
(operated on through their character lists, matching the character-level
character-level semantics), `os.environ` and Python dicts are association
lists with insertion-order semantics, `time.time()` values are `Int`,
the CSV file is an optional list of rows (absent file = `none`), and the
outbound `requests.get` call is an oracle: either a response status code
or a raised transport exception.
-/

set_option maxRecDepth 8192

namespace App

/-! ## Python string primitives (character-list semantics) -/

/-- Python `s.startswith(p)`. -/
def pyStartsWith (s p : String) : Bool := p.data.isPrefixOf s.data

/-- Python `s.endswith(p)`. -/
def pyEndsWith (s p : String) : Bool := p.data.isSuffixOf s.data

/-- Python `s.strip()`: remove leading and trailing whitespace. -/
def pyStrip (s : String) : String :=
  String.mk (((s.data.dropWhile Char.isWhitespace).reverse.dropWhile Char.isWhitespace).reverse)

/-- Split a character list at every occurrence of `c` (Python str.split
on a one-character separator). -/
def splitOnChar (c : Char) : List Char → List (List Char)
  | [] => [[]]
  | a :: rest =>
    let r := splitOnChar c rest
    if a == c then [] :: r
    else
      match r with
      | [] => [[a]]
      | seg :: segs => (a :: seg) :: segs

/-- Python str.join of parts with a single underscore separator. -/
def joinUnderscore : List String → String
  | [] => ""
  | [s] => s
  | s :: rest => s ++ "_" ++ joinUnderscore rest

/-- Python str.split on underscore with maxsplit 2: at most two
splits, the remainder keeps its underscores. -/
def pySplitUnderscore2 (s : String) : List String :=
  match (splitOnChar '_' s.data).map String.mk with
  | a :: b :: c :: rest => [a, b, joinUnderscore (c :: rest)]
  | parts => parts

/-- Python `s.lower()` (ASCII case folding, as `Char.toLower`). -/
def pyToLower (s : String) : String := String.mk (s.data.map Char.toLower)

/-! ## Environments and dictionaries

`os.environ` and Python `dict`s become association lists.  Assignment
`d[k] = v` overwrites in place or appends at the end, matching the
insertion-order iteration semantics of CPython dicts. -/

abbrev Env := List (String × String)

/-- Python dict assignment `d[k] = v` for string-valued dicts. -/
def dictInsert : List (String × String) → String → String → List (String × String)
  | [], k, v => [(k, v)]
  | (k', v') :: rest, k, v =>
    if k' == k then (k, v) :: rest else (k', v') :: dictInsert rest k v

/-! ## Flows (`app.py` lines 30-89) -/

/-- A flow dictionary: `id`, `title`, `description`, `flow_url`, `launch_key`
(the five keys the source reads and writes on flow dicts). -/
structure Flow where
  id : String
  title : String
  description : String
  flow_url : String
  launch_key : String
deriving DecidableEq, Repr

/-- `resolve_env_variables` (`app.py` lines 23-28): a string value of the
reference shape (dollar, open brace, name, close brace) is replaced by
`os.getenv(name, value)`; anything else is returned unchanged.
`value[2:-1]` is character-list `drop 2` followed by `dropLast`. -/
def resolve_env_variables (env : Env) (value : String) : String :=
  if pyStartsWith value "$\x7b" && pyEndsWith value "\x7d" then
    let env_var := String.mk ((value.data.drop 2).dropLast)
    (env.lookup env_var).getD value
  else value

/-- The collaborator state `load_flows` reads.
`yaml = none`: `flows.yml` does not exist.
`yaml = some none`: the file exists but opening/parsing it raised
(the `except` branch of lines 48-49).
`yaml = some (some l)`: the file parsed; `l` is the flows key of the
parsed document (defaulted to the empty list), with the string fields of
each flow already extracted and missing keys defaulted to the empty
string (the per-key get of lines 44-45).  `env` is `os.environ`. -/
structure Config where
  yaml : Option (Option (List Flow))
  env : Env
deriving DecidableEq, Repr

/-- The `FLOW_*` environment scan of `load_flows` (lines 52-61): build
`flow_groups`, a dict from numeric suffix to a dict of lowercased field
names. -/
def groupInsert : List (String × List (String × String)) → String → String → String →
    List (String × List (String × String))
  | [], num, field, value => [(num, [(field, value)])]
  | (n, d) :: rest, num, field, value =>
    if n == num then (n, dictInsert d field value) :: rest
    else (n, d) :: groupInsert rest num field value

/-- Lines 52-61: for each environment entry whose key starts with `FLOW_`
and has an underscore in `key[5:]`, split the key with maxsplit 2
and, when that yields at least three parts, record
`flow_groups[parts[1]][parts[2].lower()] = value`. -/
def collectGroups (env : Env) : List (String × List (String × String)) :=
  env.foldl (fun flow_groups kv =>
    if pyStartsWith kv.1 "FLOW_" && (kv.1.data.drop 5).contains '_' then
      match pySplitUnderscore2 kv.1 with
      | _ :: flow_num :: field :: _ => groupInsert flow_groups flow_num (pyToLower field) kv.2
      | _ => flow_groups
    else flow_groups) []

/-- Line 65: all five of the keys id, url, key, title, desc are present. -/
def groupComplete (d : List (String × String)) : Bool :=
  ["id", "url", "key", "title", "desc"].all (fun k => (d.lookup k).isSome)

/-- Lines 66-72: the flow dict built from a complete group. -/
def groupToFlow (d : List (String × String)) : Flow :=
  { id := (d.lookup "id").getD ""
    title := (d.lookup "title").getD ""
    description := (d.lookup "desc").getD ""
    flow_url := (d.lookup "url").getD ""
    launch_key := (d.lookup "key").getD "" }

/-- Lines 63-72: `for flow_num, data in flow_groups.items(): if all(...):
flows.append({...})`. -/
def envGroupFlows (flow_groups : List (String × List (String × String))) : List Flow :=
  flow_groups.foldl
    (fun flows g => if groupComplete g.2 then flows ++ [groupToFlow g.2] else flows) []

/-- `load_flows` (`app.py` lines 30-89): the YAML file, when it exists and
parses, is returned after resolving its `flow_url` and `launch_key`
through `resolve_env_variables` - even when its flow list is empty.
Otherwise the `FLOW_<N>_<FIELD>` groups are used when they yield at least
one flow; otherwise the legacy `FLOW_URL` / `LAUNCH_KEY` pair (both set
and truthy, i.e. non-empty) yields a single flow; otherwise `[]`. -/
def load_flows (cfg : Config) : List Flow :=
  match cfg.yaml with
  | some (some yaml_flows) =>
    yaml_flows.map (fun flow =>
      { flow with
        flow_url := resolve_env_variables cfg.env flow.flow_url
        launch_key := resolve_env_variables cfg.env flow.launch_key })
  | _ =>
    let flows := envGroupFlows (collectGroups cfg.env)
    if flows = [] then
      match cfg.env.lookup "FLOW_URL", cfg.env.lookup "LAUNCH_KEY" with
      | some flow_url, some launch_key =>
        if flow_url ≠ "" ∧ launch_key ≠ "" then
          [{ id := "legacy_flow"
             title := "🤖 Legacy RPA Flow"
             description := "Original single flow configuration"
             flow_url := flow_url
             launch_key := launch_key }]
        else []
      | _, _ => []
    else flows

/-! ## Rate limiter (`app.py` lines 18-21 and 95-106) -/

def RATE_LIMIT_REQUESTS : Nat := 10

def RATE_LIMIT_WINDOW : Int := 300

/-- The global `rate_limits` defaultdict: client IP to list of timestamps. -/
abbrev RateDict := List (String × List Int)

/-- `rate_limits[ip]` read: a defaultdict yields `[]` for an absent key. -/
def getRate (d : RateDict) (ip : String) : List Int := (d.lookup ip).getD []

/-- `rate_limits[ip] = l`. -/
def setRate : RateDict → String → List Int → RateDict
  | [], ip, l => [(ip, l)]
  | (k, v) :: rest, ip, l =>
    if k == ip then (ip, l) :: rest else (k, v) :: setRate rest ip l

/-- Line 99-100: `[req_time for req_time in rate_limits[ip] if now - req_time
< RATE_LIMIT_WINDOW]`. -/
def prune (now : Int) (record : List Int) : List Int :=
  record.filter (fun req_time => decide (now - req_time < RATE_LIMIT_WINDOW))

/-- The per-record core of `check_rate_limit`: prune, reject when the pruned
count has reached capacity, otherwise append `now` and accept. -/
def rateCheckRecord (now : Int) (record : List Int) : Bool × List Int :=
  let cleaned := prune now record
  if RATE_LIMIT_REQUESTS ≤ cleaned.length then (false, cleaned)
  else (true, cleaned ++ [now])

/-- `check_rate_limit` (lines 95-106).  The source mutates `rate_limits[ip]`
twice (assign the pruned list, then maybe append); the net effect on the
dict is a single store of the final record. -/
def check_rate_limit (now : Int) (d : RateDict) (ip : String) : Bool × RateDict :=
  let r := rateCheckRecord now (getRate d ip)
  (r.1, setRate d ip r.2)

/-- A sequence of calls to the rate limiter for one client, in time order,
starting from record `record`; returns the list of accepted call times. -/
def rateTrace (record : List Int) : List Int → List Int
  | [] => []
  | t :: ts =>
    let r := rateCheckRecord t record
    if r.1 then t :: rateTrace r.2 ts else rateTrace r.2 ts

/-! ## Audit logger (`app.py` lines 108-136)

The CSV file is `Option (List (List String))`: `none` when
`logs/trigger_log.csv` does not exist (creating it, directory included, is
the `none` to `some` transition), otherwise the list of its rows, each row
a list of serialized fields. -/

def CSV_HEADER : List String :=
  ["time_utc", "flow_id", "flow_title", "name", "status", "http_status", "ip", "ua"]

/-- Lines 113-115: `if user_agent and len(user_agent) > 200: user_agent =
user_agent[:200]` (an empty string is falsy but also never longer than 200). -/
def truncateUA (user_agent : String) : String :=
  if 200 < user_agent.length then String.mk (user_agent.data.take 200) else user_agent

/-- `http_status or ""` on line 123: `None` and the falsy `0` serialize as
the empty string, any other int as its decimal string. -/
def serializeStatus : Option Nat → String
  | none => ""
  | some c => if c == 0 then "" else toString c

/-- `log_trigger` (lines 108-136): truncate the user agent, build the row
in the fixed field order (`ip or ""` and `user_agent or ""` make missing
optionals empty), write the header first when the file did not exist, and
append exactly the one row. -/
def log_trigger (time_utc flow_id flow_title name status : String)
    (http_status : Option Nat) (ip user_agent : Option String)
    (file : Option (List (List String))) : List (List String) :=
  let ua := user_agent.map truncateUA
  let row : List String :=
    [time_utc, flow_id, flow_title, name, status,
     serializeStatus http_status, ip.getD "", ua.getD ""]
  let file_exists := file.isSome
  let contents := file.getD []
  (if file_exists then contents else contents ++ [CSV_HEADER]) ++ [row]

/-- The rows of the log file after it is guaranteed to exist: an absent file
holds just the header, an existing one its own rows. -/
def logInit : Option (List (List String)) → List (List String)
  | none => [CSV_HEADER]
  | some rows => rows

/-- The serialized audit row `log_trigger` appends. -/
def auditRow (time_utc flow_id flow_title name status : String)
    (http_status : Option Nat) (ip user_agent : Option String) : List String :=
  [time_utc, flow_id, flow_title, name, status,
   serializeStatus http_status, ip.getD "", (user_agent.map truncateUA).getD ""]

/-! ## Trigger dispatcher (`app.py` lines 156-222) -/

/-- The oracle for the outbound `requests.get` on the flow url (timeout 20):
either a response with a status code, or a raised transport exception
(timeout, DNS failure, connection refused, ...). -/
inductive HttpResult
  | status (code : Nat)
  | exc
deriving DecidableEq, Repr

/-- Terminal states of one `trigger_flow` request. -/
inductive Outcome
  | notFound
  | rateLimited
  | validationError
  | accessDenied
  | ok (code : Nat)
  | httpError (code : Nat)
  | exception
deriving DecidableEq, Repr

/-- The redirect returned to the caller. -/
inductive Redirect
  | dashboard
  | flowLogin (flow_id : String)
deriving DecidableEq, Repr

/-- One outbound `requests.get` attempt with its query parameters (line
193-206): `triggered_by`, `trigger_time`, `source = "flask"`, `flow_id`,
timeout 20. -/
structure OutboundCall where
  url : String
  triggered_by : String
  trigger_time : String
  source : String
  flow_id : String
  timeout : Nat
deriving DecidableEq, Repr

/-- The process state `trigger_flow` mutates: the rate-limit dict and the
CSV log file. -/
structure ServerState where
  rate_limits : RateDict
  log : Option (List (List String))
deriving DecidableEq, Repr

/-- One inbound `POST /trigger/<flow_id>` request together with the ambient
data the handler reads: client IP (line 167), user agent (line 168), form
fields (lines 176-177), the current time (`time.time()` for the rate
limiter, and `datetime.utcnow().isoformat() + "Z"` as `time_utc`), and the
oracle for the outbound call. -/
structure TriggerRequest where
  flow_id : String
  client_ip : String
  user_agent : String
  form_name : String
  form_key : String
  now : Int
  time_utc : String
  http : HttpResult
deriving DecidableEq, Repr

/-- What one request produces: the terminal outcome, the redirect returned,
the outbound calls attempted, and the new process state. -/
structure TriggerResult where
  outcome : Outcome
  redirect : Redirect
  calls : List OutboundCall
  state : ServerState
deriving DecidableEq, Repr

/-- `trigger_flow` (lines 156-222): look up the flow (redirect to the
dashboard when absent, no log entry), run the rate limiter (redirect with
a warning when rejected, no log entry), validate the stripped form fields
(log `VALIDATION_ERROR`, the name falling back to `"EMPTY"`), check the
secret (log `ACCESS_DENIED`), then dispatch: status 200 or 202 logs `OK`
with the code, any other status logs `HTTP_ERROR` with the code, a raised
transport error logs `EXCEPTION` without a code. -/
def trigger_flow (cfg : Config) (req : TriggerRequest) (st : ServerState) : TriggerResult :=
  match (load_flows cfg).find? (fun f => f.id == req.flow_id) with
  | none => ⟨.notFound, .dashboard, [], st⟩
  | some flow =>
    let rl := check_rate_limit req.now st.rate_limits req.client_ip
    let st1 : ServerState := ⟨rl.2, st.log⟩
    if !rl.1 then ⟨.rateLimited, .flowLogin req.flow_id, [], st1⟩
    else
      let name := pyStrip req.form_name
      let key := pyStrip req.form_key
      if name = "" ∨ key = "" then
        ⟨.validationError, .flowLogin req.flow_id, [],
          ⟨st1.rate_limits,
           some (log_trigger req.time_utc req.flow_id flow.title
             (if name = "" then "EMPTY" else name) "VALIDATION_ERROR"
             none (some req.client_ip) (some req.user_agent) st1.log)⟩⟩
      else if key ≠ flow.launch_key then
        ⟨.accessDenied, .flowLogin req.flow_id, [],
          ⟨st1.rate_limits,
           some (log_trigger req.time_utc req.flow_id flow.title name "ACCESS_DENIED"
             none (some req.client_ip) (some req.user_agent) st1.log)⟩⟩
      else
        let call : OutboundCall :=
          ⟨flow.flow_url, name, req.time_utc, "flask", req.flow_id, 20⟩
        match req.http with
        | .status code =>
          if code = 200 ∨ code = 202 then
            ⟨.ok code, .flowLogin req.flow_id, [call],
              ⟨st1.rate_limits,
               some (log_trigger req.time_utc req.flow_id flow.title name "OK"
                 (some code) (some req.client_ip) (some req.user_agent) st1.log)⟩⟩
          else
            ⟨.httpError code, .flowLogin req.flow_id, [call],
              ⟨st1.rate_limits,
               some (log_trigger req.time_utc req.flow_id flow.title name "HTTP_ERROR"
                 (some code) (some req.client_ip) (some req.user_agent) st1.log)⟩⟩
        | .exc =>
          ⟨.exception, .flowLogin req.flow_id, [call],
            ⟨st1.rate_limits,
             some (log_trigger req.time_utc req.flow_id flow.title name "EXCEPTION"
               none (some req.client_ip) (some req.user_agent) st1.log)⟩⟩

/-! ## Rate limiter lemmas -/

theorem getRate_setRate (d : RateDict) (ip : String) (l : List Int) :
    getRate (setRate d ip l) ip = l := by
  induction d with
  | nil => simp [getRate, setRate, List.lookup]
  | cons kv rest ih =>
    obtain ⟨k, v⟩ := kv
    by_cases h : k = ip
    · subst h
      simp [getRate, setRate, List.lookup]
    · have h1 : (k == ip) = false := beq_eq_false_iff_ne.mpr h
      have h2 : (ip == k) = false := beq_eq_false_iff_ne.mpr (Ne.symm h)
      simpa [getRate, setRate, h1, h2, List.lookup] using ih

theorem rateCheckRecord_true_iff (now : Int) (record : List Int) :
    (rateCheckRecord now record).1 = true ↔
      (prune now record).length < RATE_LIMIT_REQUESTS := by
  unfold rateCheckRecord
  by_cases h : RATE_LIMIT_REQUESTS ≤ (prune now record).length
  · simp [h, Nat.not_lt.mpr h]
  · simp [h, Nat.lt_of_not_le h]

theorem rateCheckRecord_snd (now : Int) (record : List Int) :
    (rateCheckRecord now record).2 =
      if (prune now record).length < RATE_LIMIT_REQUESTS
      then prune now record ++ [now] else prune now record := by
  unfold rateCheckRecord
  by_cases h : RATE_LIMIT_REQUESTS ≤ (prune now record).length
  · simp [h, Nat.not_lt.mpr h]
  · simp [h, Nat.lt_of_not_le h]

theorem prune_length_le (now : Int) (record : List Int) :
    (prune now record).length ≤ record.length := by
  unfold prune
  exact List.length_filter_le _ _

theorem rateTrace_sublist : ∀ (ts record : List Int), (rateTrace record ts).Sublist ts := by
  intro ts
  induction ts with
  | nil => intro record; simp [rateTrace]
  | cons t ts ih =>
    intro record
    unfold rateTrace
    by_cases h : (rateCheckRecord t record).1 = true
    · simp only [h, if_true]
      exact (ih _).cons₂ t
    · simp only [Bool.not_eq_true] at h
      simp only [h, Bool.false_eq_true, if_false]
      exact (ih _).cons t

theorem rate_window_aux :
    ∀ ts : List Int, List.Sorted (· ≤ ·) ts → ∀ (T : Int) (record : List Int),
      record.length ≤ RATE_LIMIT_REQUESTS →
      (record.filter fun s => decide (s ≤ T ∧ T - s < RATE_LIMIT_WINDOW)).length +
          ((rateTrace record ts).filter fun s =>
            decide (s ≤ T ∧ T - s < RATE_LIMIT_WINDOW)).length
        ≤ RATE_LIMIT_REQUESTS := by
  intro ts
  induction ts with
  | nil =>
    intro _ T record hrec
    simpa [rateTrace] using le_trans (List.length_filter_le _ _) hrec
  | cons t ts ih =>
    intro hs T record hrec
    have hall : ∀ s ∈ ts, t ≤ s := (List.sorted_cons.mp hs).1
    have hts : List.Sorted (· ≤ ·) ts := (List.sorted_cons.mp hs).2
    by_cases hT : T < t
    · have hnil : ((rateTrace record (t :: ts)).filter
          fun s => decide (s ≤ T ∧ T - s < RATE_LIMIT_WINDOW)) = [] := by
        rw [List.filter_eq_nil_iff]
        intro s hsmem
        have hmem : s ∈ t :: ts := (rateTrace_sublist (t :: ts) record).subset hsmem
        have hts' : t ≤ s := by
          rcases List.mem_cons.mp hmem with h | h
          · exact le_of_eq h.symm
          · exact hall s h
        simp only [decide_eq_true_eq]
        rintro ⟨hsT, -⟩
        exact absurd (le_trans hts' hsT) (not_le.mpr hT)
      rw [hnil]
      simpa using le_trans (List.length_filter_le _ _) hrec
    · have hT' : t ≤ T := not_lt.mp hT
      have hkey : ∀ l : List Int,
          ((prune t l).filter fun s => decide (s ≤ T ∧ T - s < RATE_LIMIT_WINDOW)) =
            l.filter fun s => decide (s ≤ T ∧ T - s < RATE_LIMIT_WINDOW) := by
        intro l
        unfold prune
        rw [List.filter_filter]
        refine List.filter_congr ?_
        intro a _
        by_cases hw : a ≤ T ∧ T - a < RATE_LIMIT_WINDOW
        · have h1 : t - a < RATE_LIMIT_WINDOW := by
            rcases hw with ⟨h2, h3⟩
            omega
          simp [hw, h1]
        · simp [hw]
      unfold rateTrace
      by_cases hacc : (rateCheckRecord t record).1 = true
      · have hlt : (prune t record).length < RATE_LIMIT_REQUESTS :=
          (rateCheckRecord_true_iff t record).mp hacc
        have h2 : (rateCheckRecord t record).2 = prune t record ++ [t] := by
          rw [rateCheckRecord_snd]
          simp [hlt]
        have hlen : (prune t record ++ [t]).length ≤ RATE_LIMIT_REQUESTS := by
          simp only [List.length_append, List.length_singleton]
          omega
        have ih' := ih hts T (prune t record ++ [t]) hlen
        rw [List.filter_append, List.length_append, hkey record] at ih'
        simp only [hacc, h2, if_true, List.filter_cons, List.filter_nil] at ih' ⊢
        by_cases hwt : t ≤ T ∧ T - t < RATE_LIMIT_WINDOW
        · simp only [decide_eq_true hwt, if_true, List.length_cons, List.length_nil] at ih' ⊢
          omega
        · simp only [decide_eq_false hwt, Bool.false_eq_true, if_false,
            List.length_nil] at ih' ⊢
          omega
      · have h10 : ¬ (prune t record).length < RATE_LIMIT_REQUESTS := fun hlt =>
          hacc ((rateCheckRecord_true_iff t record).mpr hlt)
        have h2 : (rateCheckRecord t record).2 = prune t record := by
          rw [rateCheckRecord_snd]
          simp [h10]
        simp only [Bool.not_eq_true] at hacc
        simp only [hacc, Bool.false_eq_true, if_false, h2]
        have ih' := ih hts T (prune t record)
          (le_trans (prune_length_le t record) hrec)
        rw [hkey record] at ih'
        exact ih'

/-- C1: every call to `check_rate_limit` prunes the record of the client to the
timestamps inside the 300-unit window and accepts, recording `now`, exactly
when fewer than 10 remain; a call finding 10 or more pruned timestamps (the
11th within the window) is rejected; a call after all recorded timestamps
have aged out of the window is accepted; and along any time-ordered call
sequence for one client, at most 10 accepted attempts fall inside any
trailing 300-unit window. -/
theorem claim_C1 :
    (∀ (now : Int) (d : RateDict) (ip : String),
      ((check_rate_limit now d ip).1 = true ↔
        (prune now (getRate d ip)).length < RATE_LIMIT_REQUESTS) ∧
      getRate (check_rate_limit now d ip).2 ip =
        (if (prune now (getRate d ip)).length < RATE_LIMIT_REQUESTS
         then prune now (getRate d ip) ++ [now] else prune now (getRate d ip))) ∧
    (∀ (now : Int) (d : RateDict) (ip : String),
      RATE_LIMIT_REQUESTS ≤ (prune now (getRate d ip)).length →
      (check_rate_limit now d ip).1 = false) ∧
    (∀ (now : Int) (d : RateDict) (ip : String),
      (∀ t ∈ getRate d ip, RATE_LIMIT_WINDOW ≤ now - t) →
      (check_rate_limit now d ip).1 = true) ∧
    (∀ ts : List Int, List.Sorted (· ≤ ·) ts → ∀ T : Int,
      ((rateTrace [] ts).filter fun s =>
          decide (s ≤ T ∧ T - s < RATE_LIMIT_WINDOW)).length ≤ RATE_LIMIT_REQUESTS) := by
  refine ⟨?_, ?_, ?_, ?_⟩
  · intro now d ip
    constructor
    · unfold check_rate_limit
      exact rateCheckRecord_true_iff now (getRate d ip)
    · unfold check_rate_limit
      rw [getRate_setRate]
      exact rateCheckRecord_snd now (getRate d ip)
  · intro now d ip h
    unfold check_rate_limit
    cases hb : (rateCheckRecord now (getRate d ip)).1 with
    | false => rfl
    | true =>
      exact absurd ((rateCheckRecord_true_iff now (getRate d ip)).mp hb) (Nat.not_lt.mpr h)
  · intro now d ip h
    unfold check_rate_limit
    refine (rateCheckRecord_true_iff now (getRate d ip)).mpr ?_
    have hnil : prune now (getRate d ip) = [] := by
      unfold prune
      rw [List.filter_eq_nil_iff]
      intro t ht
      simp only [decide_eq_true_eq, not_lt]
      exact h t ht
    rw [hnil]
    simp [RATE_LIMIT_REQUESTS]
  · intro ts hs T
    have := rate_window_aux ts hs T [] (Nat.zero_le _)
    simpa using this

/-- Witness for C1: the reopen clause accepts a first call on an empty
record, and a concrete time-ordered trace respects the window bound. -/
theorem claim_C1_witness :
    (check_rate_limit 5 [] "client").1 = true ∧
    ((rateTrace [] [0, 1, 2]).filter fun s =>
        decide (s ≤ (2 : Int) ∧ 2 - s < RATE_LIMIT_WINDOW)).length ≤ RATE_LIMIT_REQUESTS := by
  constructor
  · exact claim_C1.2.2.1 5 [] "client" (by decide)
  · exact claim_C1.2.2.2 [0, 1, 2] (by decide) 2

/-! ## Audit logger lemmas -/

theorem log_trigger_eq (time_utc flow_id flow_title name status : String)
    (http_status : Option Nat) (ip user_agent : Option String)
    (file : Option (List (List String))) :
    log_trigger time_utc flow_id flow_title name status http_status ip user_agent file =
      logInit file ++
        [auditRow time_utc flow_id flow_title name status http_status ip user_agent] := by
  cases file <;> rfl

/-- C7: `log_trigger` appends exactly one data row, leaves prior rows
untouched, creates the file with the fixed header row first when it is
absent, serializes the eight fields in the fixed order with missing
optionals empty, and truncates user agents longer than 200 characters to
exactly 200 characters. -/
theorem claim_C7 (time_utc flow_id flow_title name status : String)
    (http_status : Option Nat) (ip user_agent : Option String)
    (file : Option (List (List String))) :
    (∀ rows, file = some rows →
      log_trigger time_utc flow_id flow_title name status http_status ip user_agent file =
        rows ++ [[time_utc, flow_id, flow_title, name, status,
          serializeStatus http_status, ip.getD "", (user_agent.map truncateUA).getD ""]]) ∧
    (file = none →
      log_trigger time_utc flow_id flow_title name status http_status ip user_agent file =
        [CSV_HEADER,
         [time_utc, flow_id, flow_title, name, status,
          serializeStatus http_status, ip.getD "", (user_agent.map truncateUA).getD ""]]) ∧
    serializeStatus none = "" ∧
    (∀ ua : String, 200 < ua.length →
      truncateUA ua = String.mk (ua.data.take 200) ∧ (truncateUA ua).length = 200) ∧
    (∀ ua : String, ua.length ≤ 200 → truncateUA ua = ua) := by
  refine ⟨?_, ?_, rfl, ?_, ?_⟩
  · rintro rows rfl
    rfl
  · rintro rfl
    rfl
  · intro ua hua
    constructor
    · unfold truncateUA
      rw [if_pos hua]
    · unfold truncateUA
      rw [if_pos hua]
      show (ua.data.take 200).length = 200
      rw [List.length_take]
      exact Nat.min_eq_left (le_of_lt hua)
  · intro ua hua
    unfold truncateUA
    rw [if_neg (Nat.not_lt.mpr hua)]

/-- Witness for C7: a concrete append to an absent file writes the header
and one row, and a 201-character user agent is cut to 200. -/
theorem claim_C7_witness :
    log_trigger "t0" "f" "FT" "n" "OK" (some 200) (some "ip")
        (some (String.mk (List.replicate 201 'a'))) none =
      [CSV_HEADER,
       ["t0", "f", "FT", "n", "OK", "200", "ip", String.mk (List.replicate 200 'a')]] ∧
    (truncateUA (String.mk (List.replicate 201 'a'))).length = 200 := by
  constructor
  · have h := (claim_C7 "t0" "f" "FT" "n" "OK" (some 200) (some "ip")
      (some (String.mk (List.replicate 201 'a'))) none).2.1 rfl
    rw [h]
    decide
  · exact ((claim_C7 "t0" "f" "FT" "n" "OK" none none none none).2.2.2.1
      (String.mk (List.replicate 201 'a')) (by decide)).2

/-! ## Resolver lemmas -/

theorem data_append_eq (a b : String) : (a ++ b).data = a.data ++ b.data := rfl

theorem resolve_ref (env : Env) (name : String) :
    resolve_env_variables env ("$\x7b" ++ name ++ "\x7d") =
      (env.lookup name).getD ("$\x7b" ++ name ++ "\x7d") := by
  have h1 : ("$\x7b" : String).data = ['$', '\x7b'] := rfl
  have h2 : ("\x7d" : String).data = ['\x7d'] := rfl
  have hdata : ("$\x7b" ++ name ++ "\x7d").data = '$' :: '\x7b' :: (name.data ++ ['\x7d']) := by
    rw [data_append_eq, data_append_eq, h1, h2]
    simp
  have hstart : pyStartsWith ("$\x7b" ++ name ++ "\x7d") "$\x7b" = true := by
    unfold pyStartsWith
    rw [hdata, h1]
    simp [List.isPrefixOf]
  have hend : pyEndsWith ("$\x7b" ++ name ++ "\x7d") "\x7d" = true := by
    unfold pyEndsWith
    rw [hdata, h2]
    simp [List.isSuffixOf, List.isPrefixOf]
  have hvar : String.mk ((("$\x7b" ++ name ++ "\x7d").data.drop 2).dropLast) = name := by
    rw [hdata]
    show String.mk ((name.data ++ ['\x7d']).dropLast) = name
    rw [List.dropLast_concat]
  unfold resolve_env_variables
  rw [hstart, hend]
  simp only [Bool.and_self, if_true]
  rw [hvar]

/-! ## Registry lemmas -/

theorem load_flows_yaml (cfg : Config) (fs : List Flow) (h : cfg.yaml = some (some fs)) :
    load_flows cfg = fs.map (fun flow =>
      { flow with
        flow_url := resolve_env_variables cfg.env flow.flow_url
        launch_key := resolve_env_variables cfg.env flow.launch_key }) := by
  unfold load_flows
  rw [h]

theorem load_flows_fallback (cfg : Config) (hy : cfg.yaml = none ∨ cfg.yaml = some none) :
    load_flows cfg =
      (if envGroupFlows (collectGroups cfg.env) = [] then
        match cfg.env.lookup "FLOW_URL", cfg.env.lookup "LAUNCH_KEY" with
        | some flow_url, some launch_key =>
          if flow_url ≠ "" ∧ launch_key ≠ "" then
            [⟨"legacy_flow", "🤖 Legacy RPA Flow", "Original single flow configuration",
              flow_url, launch_key⟩]
          else []
        | _, _ => []
       else envGroupFlows (collectGroups cfg.env)) := by
  unfold load_flows
  rcases hy with h | h <;> rw [h]

theorem envGroupFlows_eq (groups : List (String × List (String × String))) :
    envGroupFlows groups =
      (groups.filter fun g => groupComplete g.2).map fun g => groupToFlow g.2 := by
  have haux : ∀ (gs : List (String × List (String × String))) (acc : List Flow),
      gs.foldl (fun flows g => if groupComplete g.2 then flows ++ [groupToFlow g.2] else flows)
          acc =
        acc ++ (gs.filter fun g => groupComplete g.2).map fun g => groupToFlow g.2 := by
    intro gs
    induction gs with
    | nil => intro acc; simp
    | cons g gs ih =>
      intro acc
      by_cases hg : groupComplete g.2
      · simp [List.foldl_cons, List.filter_cons, hg, ih]
      · simp [List.foldl_cons, List.filter_cons, hg, ih]
  unfold envGroupFlows
  simpa using haux groups []

/-- C8: a `FLOW_<N>_<FIELD>` group yields exactly the flow built from its
field dict when all five of `id`, `url`, `key`, `title`, `desc` are
present, and a group missing any of them is dropped and contributes no
flow: the env-derived registry is the complete groups, in order, mapped to
flows. -/
theorem claim_C8 (env : Env) :
    envGroupFlows (collectGroups env) =
      ((collectGroups env).filter fun g => groupComplete g.2).map fun g => groupToFlow g.2 :=
  envGroupFlows_eq (collectGroups env)

/-- Counterexample to C6 as stated: not every reference-shaped value inside
the config file is substituted.  Lines 43-45 resolve only `flow_url` and
`launch_key`: with `FOO=bar` set, a flow whose five fields are all the
literal reference to FOO comes back with `flow_url` and `launch_key`
resolved to `bar` but `id`, `title` and `description` still the literal
reference, which differs from `bar`. -/
theorem claim_C6_counterexample :
    load_flows ⟨some (some [⟨"$\x7bFOO\x7d", "$\x7bFOO\x7d", "$\x7bFOO\x7d",
        "$\x7bFOO\x7d", "$\x7bFOO\x7d"⟩]), [("FOO", "bar")]⟩ =
      [⟨"$\x7bFOO\x7d", "$\x7bFOO\x7d", "$\x7bFOO\x7d", "bar", "bar"⟩] ∧
    ("$\x7bFOO\x7d" : String) ≠ "bar" := by
  exact ⟨by decide, by decide⟩

/-- C6 (amended): only the `flow_url` and `launch_key` values of each flow
of a parsed config file undergo reference substitution - such a value of
the reference shape (dollar, open brace, NAME, close brace) resolves to
the environment variable NAME when it is set and stays the literal
reference when it is not - while the `id`, `title` and `description`
fields pass through `load_flows` unchanged, reference-shaped or not. -/
theorem claim_C6 :
    (∀ (env : Env) (name : String),
      resolve_env_variables env ("$\x7b" ++ name ++ "\x7d") =
        (env.lookup name).getD ("$\x7b" ++ name ++ "\x7d")) ∧
    (∀ (cfg : Config) (fs : List Flow), cfg.yaml = some (some fs) →
      load_flows cfg = fs.map (fun flow =>
        { flow with
          flow_url := resolve_env_variables cfg.env flow.flow_url
          launch_key := resolve_env_variables cfg.env flow.launch_key })) ∧
    (∀ (cfg : Config) (fs : List Flow), cfg.yaml = some (some fs) →
      (load_flows cfg).map Flow.id = fs.map Flow.id ∧
      (load_flows cfg).map Flow.title = fs.map Flow.title ∧
      (load_flows cfg).map Flow.description = fs.map Flow.description) := by
  refine ⟨resolve_ref, load_flows_yaml, ?_⟩
  intro cfg fs h
  rw [load_flows_yaml cfg fs h]
  refine ⟨?_, ?_, ?_⟩ <;> (rw [List.map_map]; rfl)

/-- Witness for C6 (amended): with `FOO=bar` the reference resolves to
`bar`, with `FOO` unset it stays literal, a parsed config file gets its
`flow_url` substituted, and a reference-shaped `title` passes through
untouched. -/
theorem claim_C6_witness :
    resolve_env_variables [("FOO", "bar")] "$\x7bFOO\x7d" = "bar" ∧
    resolve_env_variables [] "$\x7bFOO\x7d" = "$\x7bFOO\x7d" ∧
    load_flows ⟨some (some [⟨"f", "T", "D", "$\x7bFOO\x7d", "k"⟩]), [("FOO", "bar")]⟩ =
      [⟨"f", "T", "D", "bar", "k"⟩] ∧
    (load_flows ⟨some (some [⟨"f", "$\x7bFOO\x7d", "D", "u", "k"⟩]),
        [("FOO", "bar")]⟩).map Flow.title = ["$\x7bFOO\x7d"] := by
  refine ⟨?_, ?_, ?_, ?_⟩
  · have h := claim_C6.1 [("FOO", "bar")] "FOO"
    rw [show ("$\x7b" ++ "FOO" ++ "\x7d" : String) = "$\x7bFOO\x7d" from rfl] at h
    rw [h]
    rfl
  · have h := claim_C6.1 [] "FOO"
    rw [show ("$\x7b" ++ "FOO" ++ "\x7d" : String) = "$\x7bFOO\x7d" from rfl] at h
    rw [h]
    rfl
  · have h := claim_C6.2.1 ⟨some (some [⟨"f", "T", "D", "$\x7bFOO\x7d", "k"⟩]),
      [("FOO", "bar")]⟩ [⟨"f", "T", "D", "$\x7bFOO\x7d", "k"⟩] rfl
    rw [h]
    decide
  · have h := (claim_C6.2.2 ⟨some (some [⟨"f", "$\x7bFOO\x7d", "D", "u", "k"⟩]),
      [("FOO", "bar")]⟩ [⟨"f", "$\x7bFOO\x7d", "D", "u", "k"⟩] rfl).2.1
    rw [h]
    decide

/-- Counterexample to C3 as stated: a config file that exists and parses to
an empty flow list wins over a present, complete environment group, so
`load_flows` returns `[]` even though the first non-empty source is the
group source. -/
theorem claim_C3_counterexample :
    (⟨some (some []),
      [("FLOW_1_ID", "f1"), ("FLOW_1_URL", "u"), ("FLOW_1_KEY", "k"),
       ("FLOW_1_TITLE", "T"), ("FLOW_1_DESC", "D")]⟩ : Config).yaml =
        some (some ([] : List Flow)) ∧
    envGroupFlows (collectGroups
      [("FLOW_1_ID", "f1"), ("FLOW_1_URL", "u"), ("FLOW_1_KEY", "k"),
       ("FLOW_1_TITLE", "T"), ("FLOW_1_DESC", "D")]) = [⟨"f1", "T", "D", "u", "k"⟩] ∧
    load_flows ⟨some (some []),
      [("FLOW_1_ID", "f1"), ("FLOW_1_URL", "u"), ("FLOW_1_KEY", "k"),
       ("FLOW_1_TITLE", "T"), ("FLOW_1_DESC", "D")]⟩ = [] := by
  exact ⟨rfl, by decide, by decide⟩

/-- C3 (amended): `load_flows` returns the config file's flows, with
references resolved, whenever the file exists and parses - even when that
list is empty; only when the file is absent or unparseable does it fall
back to the environment groups when they yield at least one flow, then to
the legacy pair when both variables are set and non-empty, and to the
empty list otherwise.  In particular a config file with one valid flow
wins regardless of any environment groups also present. -/
theorem claim_C3 :
    (∀ (cfg : Config) (fs : List Flow), cfg.yaml = some (some fs) →
      load_flows cfg = fs.map (fun flow =>
        { flow with
          flow_url := resolve_env_variables cfg.env flow.flow_url
          launch_key := resolve_env_variables cfg.env flow.launch_key })) ∧
    (∀ cfg : Config, cfg.yaml = none ∨ cfg.yaml = some none →
      envGroupFlows (collectGroups cfg.env) ≠ [] →
      load_flows cfg = envGroupFlows (collectGroups cfg.env)) ∧
    (∀ cfg : Config, cfg.yaml = none ∨ cfg.yaml = some none →
      envGroupFlows (collectGroups cfg.env) = [] →
      ∀ u k, cfg.env.lookup "FLOW_URL" = some u → cfg.env.lookup "LAUNCH_KEY" = some k →
        u ≠ "" → k ≠ "" →
        load_flows cfg =
          [⟨"legacy_flow", "🤖 Legacy RPA Flow", "Original single flow configuration",
            u, k⟩]) ∧
    (∀ cfg : Config, cfg.yaml = none ∨ cfg.yaml = some none →
      envGroupFlows (collectGroups cfg.env) = [] →
      (cfg.env.lookup "FLOW_URL" = none ∨ cfg.env.lookup "LAUNCH_KEY" = none ∨
       cfg.env.lookup "FLOW_URL" = some "" ∨ cfg.env.lookup "LAUNCH_KEY" = some "") →
      load_flows cfg = []) := by
  refine ⟨load_flows_yaml, ?_, ?_, ?_⟩
  · intro cfg hy he
    rw [load_flows_fallback cfg hy, if_neg he]
  · intro cfg hy he u k hu hk hu' hk'
    rw [load_flows_fallback cfg hy, if_pos he, hu, hk]
    simp [hu', hk']
  · intro cfg hy he hleg
    rw [load_flows_fallback cfg hy, if_pos he]
    rcases hu : cfg.env.lookup "FLOW_URL" with _ | u
    · rcases hk : cfg.env.lookup "LAUNCH_KEY" with _ | k <;> rfl
    · rcases hk : cfg.env.lookup "LAUNCH_KEY" with _ | k
      · rfl
      · rw [hu, hk] at hleg
        have huk : u = "" ∨ k = "" := by
          rcases hleg with h | h | h | h
          · simp at h
          · simp at h
          · simp only [Option.some.injEq] at h
            exact Or.inl h
          · simp only [Option.some.injEq] at h
            exact Or.inr h
        rcases huk with h | h <;> simp [h]

/-- Witness for C3 (amended): a parsed config file with one flow wins over a
complete environment group, and with no config file the group source is
used. -/
theorem claim_C3_witness :
    load_flows ⟨some (some [⟨"y", "YT", "YD", "yu", "yk"⟩]),
      [("FLOW_1_ID", "f1"), ("FLOW_1_URL", "u"), ("FLOW_1_KEY", "k"),
       ("FLOW_1_TITLE", "T"), ("FLOW_1_DESC", "D")]⟩ = [⟨"y", "YT", "YD", "yu", "yk"⟩] ∧
    load_flows ⟨none,
      [("FLOW_1_ID", "f1"), ("FLOW_1_URL", "u"), ("FLOW_1_KEY", "k"),
       ("FLOW_1_TITLE", "T"), ("FLOW_1_DESC", "D")]⟩ = [⟨"f1", "T", "D", "u", "k"⟩] := by
  constructor
  · have h := claim_C3.1 ⟨some (some [⟨"y", "YT", "YD", "yu", "yk"⟩]),
      [("FLOW_1_ID", "f1"), ("FLOW_1_URL", "u"), ("FLOW_1_KEY", "k"),
       ("FLOW_1_TITLE", "T"), ("FLOW_1_DESC", "D")]⟩ [⟨"y", "YT", "YD", "yu", "yk"⟩] rfl
    rw [h]
    decide
  · have h := claim_C3.2.1 ⟨none,
      [("FLOW_1_ID", "f1"), ("FLOW_1_URL", "u"), ("FLOW_1_KEY", "k"),
       ("FLOW_1_TITLE", "T"), ("FLOW_1_DESC", "D")]⟩ (Or.inl rfl) (by decide)
    rw [h]
    decide

/-! ## Trigger dispatcher lemmas: one equation per terminal branch -/

theorem trigger_flow_notFound (cfg : Config) (req : TriggerRequest) (st : ServerState)
    (hf : (load_flows cfg).find? (fun f => f.id == req.flow_id) = none) :
    trigger_flow cfg req st = ⟨.notFound, .dashboard, [], st⟩ := by
  unfold trigger_flow
  rw [hf]

theorem trigger_flow_rateLimited (cfg : Config) (req : TriggerRequest) (st : ServerState)
    (flow : Flow) (hf : (load_flows cfg).find? (fun f => f.id == req.flow_id) = some flow)
    (hr : (check_rate_limit req.now st.rate_limits req.client_ip).1 = false) :
    trigger_flow cfg req st =
      ⟨.rateLimited, .flowLogin req.flow_id, [],
       ⟨(check_rate_limit req.now st.rate_limits req.client_ip).2, st.log⟩⟩ := by
  unfold trigger_flow
  rw [hf]
  simp [hr]

theorem trigger_flow_invalid (cfg : Config) (req : TriggerRequest) (st : ServerState)
    (flow : Flow) (hf : (load_flows cfg).find? (fun f => f.id == req.flow_id) = some flow)
    (hr : (check_rate_limit req.now st.rate_limits req.client_ip).1 = true)
    (hv : pyStrip req.form_name = "" ∨ pyStrip req.form_key = "") :
    trigger_flow cfg req st =
      ⟨.validationError, .flowLogin req.flow_id, [],
       ⟨(check_rate_limit req.now st.rate_limits req.client_ip).2,
        some (log_trigger req.time_utc req.flow_id flow.title
          (if pyStrip req.form_name = "" then "EMPTY" else pyStrip req.form_name)
          "VALIDATION_ERROR" none (some req.client_ip) (some req.user_agent) st.log)⟩⟩ := by
  unfold trigger_flow
  rw [hf]
  simp only [hr, Bool.not_true, Bool.false_eq_true, if_false]
  rw [if_pos hv]

theorem trigger_flow_denied (cfg : Config) (req : TriggerRequest) (st : ServerState)
    (flow : Flow) (hf : (load_flows cfg).find? (fun f => f.id == req.flow_id) = some flow)
    (hr : (check_rate_limit req.now st.rate_limits req.client_ip).1 = true)
    (hn : pyStrip req.form_name ≠ "") (hk : pyStrip req.form_key ≠ "")
    (hd : pyStrip req.form_key ≠ flow.launch_key) :
    trigger_flow cfg req st =
      ⟨.accessDenied, .flowLogin req.flow_id, [],
       ⟨(check_rate_limit req.now st.rate_limits req.client_ip).2,
        some (log_trigger req.time_utc req.flow_id flow.title (pyStrip req.form_name)
          "ACCESS_DENIED" none (some req.client_ip) (some req.user_agent) st.log)⟩⟩ := by
  unfold trigger_flow
  rw [hf]
  simp only [hr, Bool.not_true, Bool.false_eq_true, if_false]
  rw [if_neg (not_or.mpr ⟨hn, hk⟩), if_pos hd]

theorem trigger_flow_ok (cfg : Config) (req : TriggerRequest) (st : ServerState)
    (flow : Flow) (code : Nat)
    (hf : (load_flows cfg).find? (fun f => f.id == req.flow_id) = some flow)
    (hr : (check_rate_limit req.now st.rate_limits req.client_ip).1 = true)
    (hn : pyStrip req.form_name ≠ "") (hk : pyStrip req.form_key ≠ "")
    (hs : pyStrip req.form_key = flow.launch_key)
    (hh : req.http = .status code) (hc : code = 200 ∨ code = 202) :
    trigger_flow cfg req st =
      ⟨.ok code, .flowLogin req.flow_id,
       [⟨flow.flow_url, pyStrip req.form_name, req.time_utc, "flask", req.flow_id, 20⟩],
       ⟨(check_rate_limit req.now st.rate_limits req.client_ip).2,
        some (log_trigger req.time_utc req.flow_id flow.title (pyStrip req.form_name)
          "OK" (some code) (some req.client_ip) (some req.user_agent) st.log)⟩⟩ := by
  unfold trigger_flow
  rw [hf]
  simp only [hr, Bool.not_true, Bool.false_eq_true, if_false]
  rw [if_neg (not_or.mpr ⟨hn, hk⟩), if_neg (not_not_intro hs), hh]
  exact if_pos hc

theorem trigger_flow_httpErr (cfg : Config) (req : TriggerRequest) (st : ServerState)
    (flow : Flow) (code : Nat)
    (hf : (load_flows cfg).find? (fun f => f.id == req.flow_id) = some flow)
    (hr : (check_rate_limit req.now st.rate_limits req.client_ip).1 = true)
    (hn : pyStrip req.form_name ≠ "") (hk : pyStrip req.form_key ≠ "")
    (hs : pyStrip req.form_key = flow.launch_key)
    (hh : req.http = .status code) (hc : ¬(code = 200 ∨ code = 202)) :
    trigger_flow cfg req st =
      ⟨.httpError code, .flowLogin req.flow_id,
       [⟨flow.flow_url, pyStrip req.form_name, req.time_utc, "flask", req.flow_id, 20⟩],
       ⟨(check_rate_limit req.now st.rate_limits req.client_ip).2,
        some (log_trigger req.time_utc req.flow_id flow.title (pyStrip req.form_name)
          "HTTP_ERROR" (some code) (some req.client_ip) (some req.user_agent) st.log)⟩⟩ := by
  unfold trigger_flow
  rw [hf]
  simp only [hr, Bool.not_true, Bool.false_eq_true, if_false]
  rw [if_neg (not_or.mpr ⟨hn, hk⟩), if_neg (not_not_intro hs), hh]
  exact if_neg hc

theorem trigger_flow_exc (cfg : Config) (req : TriggerRequest) (st : ServerState)
    (flow : Flow)
    (hf : (load_flows cfg).find? (fun f => f.id == req.flow_id) = some flow)
    (hr : (check_rate_limit req.now st.rate_limits req.client_ip).1 = true)
    (hn : pyStrip req.form_name ≠ "") (hk : pyStrip req.form_key ≠ "")
    (hs : pyStrip req.form_key = flow.launch_key)
    (hh : req.http = .exc) :
    trigger_flow cfg req st =
      ⟨.exception, .flowLogin req.flow_id,
       [⟨flow.flow_url, pyStrip req.form_name, req.time_utc, "flask", req.flow_id, 20⟩],
       ⟨(check_rate_limit req.now st.rate_limits req.client_ip).2,
        some (log_trigger req.time_utc req.flow_id flow.title (pyStrip req.form_name)
          "EXCEPTION" none (some req.client_ip) (some req.user_agent) st.log)⟩⟩ := by
  unfold trigger_flow
  rw [hf]
  simp only [hr, Bool.not_true, Bool.false_eq_true, if_false]
  rw [if_neg (not_or.mpr ⟨hn, hk⟩), if_neg (not_not_intro hs), hh]

theorem auditRow_none (t f l n s ip ua : String) :
    auditRow t f l n s none (some ip) (some ua) =
      [t, f, l, n, s, "", ip, truncateUA ua] := rfl

theorem auditRow_some (t f l n s : String) (c : Nat) (ip ua : String) (hc : c ≠ 0) :
    auditRow t f l n s (some c) (some ip) (some ua) =
      [t, f, l, n, s, toString c, ip, truncateUA ua] := by
  have hz : (c == 0) = false := beq_eq_false_iff_ne.mpr hc
  simp [auditRow, serializeStatus, hz]

theorem trigger_flow_rate_update (cfg : Config) (req : TriggerRequest) (st : ServerState)
    (flow : Flow)
    (hf : (load_flows cfg).find? (fun f => f.id == req.flow_id) = some flow) :
    (trigger_flow cfg req st).state.rate_limits =
      (check_rate_limit req.now st.rate_limits req.client_ip).2 := by
  unfold trigger_flow
  rw [hf]
  simp only []
  split
  · rfl
  · split
    · rfl
    · split
      · rfl
      · split
        · split
          · rfl
          · rfl
        · rfl

theorem trigger_flow_now_mem (cfg : Config) (req : TriggerRequest) (st : ServerState)
    (flow : Flow)
    (hf : (load_flows cfg).find? (fun f => f.id == req.flow_id) = some flow)
    (hr : (check_rate_limit req.now st.rate_limits req.client_ip).1 = true) :
    req.now ∈ getRate (trigger_flow cfg req st).state.rate_limits req.client_ip := by
  rw [trigger_flow_rate_update cfg req st flow hf]
  show req.now ∈ getRate (setRate st.rate_limits req.client_ip
    (rateCheckRecord req.now (getRate st.rate_limits req.client_ip)).2) req.client_ip
  rw [getRate_setRate]
  have h1 : (rateCheckRecord req.now (getRate st.rate_limits req.client_ip)).1 = true := hr
  rw [rateCheckRecord_snd, if_pos ((rateCheckRecord_true_iff _ _).mp h1)]
  exact List.mem_append_right _ (List.mem_singleton_self _)

/-- C2: when the flow exists, the rate check passes, both trimmed fields are
non-empty and the key matches the secret, the dispatch outcome is
classified from the outbound result - status 200 or 202 gives `OK` with
the code recorded in the audit row, any other (real, hence nonzero) status
gives `HTTP_ERROR` with the code recorded, a raised transport error gives
`EXCEPTION` with no code recorded - and in every case exactly one audit
row is appended. -/
theorem claim_C2 (cfg : Config) (req : TriggerRequest) (st : ServerState) (flow : Flow)
    (hf : (load_flows cfg).find? (fun f => f.id == req.flow_id) = some flow)
    (hr : (check_rate_limit req.now st.rate_limits req.client_ip).1 = true)
    (hn : pyStrip req.form_name ≠ "") (hk : pyStrip req.form_key ≠ "")
    (hs : pyStrip req.form_key = flow.launch_key) :
    (∃ row, (trigger_flow cfg req st).state.log = some (logInit st.log ++ [row])) ∧
    (∀ code : Nat, req.http = .status code → 100 ≤ code →
      ((code = 200 ∨ code = 202) →
        (trigger_flow cfg req st).outcome = .ok code ∧
        (trigger_flow cfg req st).state.log = some (logInit st.log ++
          [[req.time_utc, req.flow_id, flow.title, pyStrip req.form_name, "OK",
            toString code, req.client_ip, truncateUA req.user_agent]])) ∧
      (¬(code = 200 ∨ code = 202) →
        (trigger_flow cfg req st).outcome = .httpError code ∧
        (trigger_flow cfg req st).state.log = some (logInit st.log ++
          [[req.time_utc, req.flow_id, flow.title, pyStrip req.form_name, "HTTP_ERROR",
            toString code, req.client_ip, truncateUA req.user_agent]]))) ∧
    (req.http = .exc →
      (trigger_flow cfg req st).outcome = .exception ∧
      (trigger_flow cfg req st).state.log = some (logInit st.log ++
        [[req.time_utc, req.flow_id, flow.title, pyStrip req.form_name, "EXCEPTION",
          "", req.client_ip, truncateUA req.user_agent]])) := by
  refine ⟨?_, ?_, ?_⟩
  · cases hh : req.http with
    | status code =>
      by_cases hc : code = 200 ∨ code = 202
      · rw [trigger_flow_ok cfg req st flow code hf hr hn hk hs hh hc]
        exact ⟨_, congrArg some (log_trigger_eq _ _ _ _ _ _ _ _ _)⟩
      · rw [trigger_flow_httpErr cfg req st flow code hf hr hn hk hs hh hc]
        exact ⟨_, congrArg some (log_trigger_eq _ _ _ _ _ _ _ _ _)⟩
    | exc =>
      rw [trigger_flow_exc cfg req st flow hf hr hn hk hs hh]
      exact ⟨_, congrArg some (log_trigger_eq _ _ _ _ _ _ _ _ _)⟩
  · intro code hh h100
    have hc0 : code ≠ 0 := by omega
    constructor
    · intro hc
      rw [trigger_flow_ok cfg req st flow code hf hr hn hk hs hh hc]
      refine ⟨rfl, ?_⟩
      rw [show (some (log_trigger req.time_utc req.flow_id flow.title (pyStrip req.form_name)
          "OK" (some code) (some req.client_ip) (some req.user_agent) st.log) :
            Option (List (List String))) =
          some (logInit st.log ++ [auditRow req.time_utc req.flow_id flow.title
            (pyStrip req.form_name) "OK" (some code) (some req.client_ip)
            (some req.user_agent)])
        from congrArg some (log_trigger_eq _ _ _ _ _ _ _ _ _)]
      rw [auditRow_some _ _ _ _ _ _ _ _ hc0]
    · intro hc
      rw [trigger_flow_httpErr cfg req st flow code hf hr hn hk hs hh hc]
      refine ⟨rfl, ?_⟩
      rw [show (some (log_trigger req.time_utc req.flow_id flow.title (pyStrip req.form_name)
          "HTTP_ERROR" (some code) (some req.client_ip) (some req.user_agent) st.log) :
            Option (List (List String))) =
          some (logInit st.log ++ [auditRow req.time_utc req.flow_id flow.title
            (pyStrip req.form_name) "HTTP_ERROR" (some code) (some req.client_ip)
            (some req.user_agent)])
        from congrArg some (log_trigger_eq _ _ _ _ _ _ _ _ _)]
      rw [auditRow_some _ _ _ _ _ _ _ _ hc0]
  · intro hh
    rw [trigger_flow_exc cfg req st flow hf hr hn hk hs hh]
    refine ⟨rfl, ?_⟩
    rw [show (some (log_trigger req.time_utc req.flow_id flow.title (pyStrip req.form_name)
        "EXCEPTION" none (some req.client_ip) (some req.user_agent) st.log) :
          Option (List (List String))) =
        some (logInit st.log ++ [auditRow req.time_utc req.flow_id flow.title
          (pyStrip req.form_name) "EXCEPTION" none (some req.client_ip)
          (some req.user_agent)])
      from congrArg some (log_trigger_eq _ _ _ _ _ _ _ _ _)]
    rw [auditRow_none]

/-- Witness for C2: a successful concrete dispatch (flow from a parsed
config file, matching key, target answering 200) yields `OK` and appends
the one audit row with `http_status` 200. -/
theorem claim_C2_witness :
    (trigger_flow ⟨some (some [⟨"f", "T", "D", "http://e", "sek"⟩]), []⟩
        ⟨"f", "1.2.3.4", "UA", " Ola ", "sek", 0, "t0", .status 200⟩
        ⟨[], none⟩).outcome = Outcome.ok 200 ∧
    (trigger_flow ⟨some (some [⟨"f", "T", "D", "http://e", "sek"⟩]), []⟩
        ⟨"f", "1.2.3.4", "UA", " Ola ", "sek", 0, "t0", .status 200⟩
        ⟨[], none⟩).state.log =
      some [CSV_HEADER, ["t0", "f", "T", "Ola", "OK", "200", "1.2.3.4", "UA"]] := by
  have h := (claim_C2 ⟨some (some [⟨"f", "T", "D", "http://e", "sek"⟩]), []⟩
      ⟨"f", "1.2.3.4", "UA", " Ola ", "sek", 0, "t0", .status 200⟩
      ⟨[], none⟩ ⟨"f", "T", "D", "http://e", "sek"⟩
      (by decide) (by decide) (by decide) (by decide) (by decide)).2.1
      200 rfl (by decide)
  have h2 := h.1 (Or.inl rfl)
  refine ⟨h2.1, ?_⟩
  rw [h2.2]
  decide

/-- Counterexample to C4 as stated: a request with an existing flow,
non-empty trimmed name and key, and a wrong key, but arriving while the
client is rate limited, is rejected by the limiter and appends no
`ACCESS_DENIED` audit row (the log stays absent). -/
theorem claim_C4_counterexample :
    ((load_flows ⟨none, [("FLOW_URL", "u"), ("LAUNCH_KEY", "sek")]⟩).find?
        (fun f => f.id == "legacy_flow")).isSome = true ∧
    pyStrip " Ola " ≠ "" ∧ pyStrip " wrong " ≠ "" ∧
    pyStrip " wrong " ≠ "sek" ∧
    (trigger_flow ⟨none, [("FLOW_URL", "u"), ("LAUNCH_KEY", "sek")]⟩
        ⟨"legacy_flow", "ip", "UA", " Ola ", " wrong ", 0, "t0", .status 200⟩
        ⟨[("ip", [0, 0, 0, 0, 0, 0, 0, 0, 0, 0])], none⟩).outcome = .rateLimited ∧
    (trigger_flow ⟨none, [("FLOW_URL", "u"), ("LAUNCH_KEY", "sek")]⟩
        ⟨"legacy_flow", "ip", "UA", " Ola ", " wrong ", 0, "t0", .status 200⟩
        ⟨[("ip", [0, 0, 0, 0, 0, 0, 0, 0, 0, 0])], none⟩).state.log = none := by
  exact ⟨by decide, by decide, by decide, by decide, by decide, by decide⟩

/-- C4 (amended): for a trigger request with an existing flow that passes
the rate check, with non-empty trimmed name and key, a key that is not
exactly string-equal to the secret of the flow makes no outbound call and
appends exactly one `ACCESS_DENIED` audit row. -/
theorem claim_C4 (cfg : Config) (req : TriggerRequest) (st : ServerState) (flow : Flow)
    (hf : (load_flows cfg).find? (fun f => f.id == req.flow_id) = some flow)
    (hr : (check_rate_limit req.now st.rate_limits req.client_ip).1 = true)
    (hn : pyStrip req.form_name ≠ "") (hk : pyStrip req.form_key ≠ "")
    (hd : pyStrip req.form_key ≠ flow.launch_key) :
    (trigger_flow cfg req st).calls = [] ∧
    (trigger_flow cfg req st).outcome = .accessDenied ∧
    (trigger_flow cfg req st).state.log = some (logInit st.log ++
      [[req.time_utc, req.flow_id, flow.title, pyStrip req.form_name, "ACCESS_DENIED",
        "", req.client_ip, truncateUA req.user_agent]]) := by
  rw [trigger_flow_denied cfg req st flow hf hr hn hk hd]
  refine ⟨rfl, rfl, ?_⟩
  rw [show (some (log_trigger req.time_utc req.flow_id flow.title (pyStrip req.form_name)
      "ACCESS_DENIED" none (some req.client_ip) (some req.user_agent) st.log) :
        Option (List (List String))) =
      some (logInit st.log ++ [auditRow req.time_utc req.flow_id flow.title
        (pyStrip req.form_name) "ACCESS_DENIED" none (some req.client_ip)
        (some req.user_agent)])
    from congrArg some (log_trigger_eq _ _ _ _ _ _ _ _ _)]
  rw [auditRow_none]

/-- Witness for C4 (amended): a concrete mismatching key on a fresh client
makes no call and appends the one `ACCESS_DENIED` row. -/
theorem claim_C4_witness :
    (trigger_flow ⟨none, [("FLOW_URL", "u"), ("LAUNCH_KEY", "sek")]⟩
        ⟨"legacy_flow", "ip", "UA", "Ola", "bad", 0, "t0", .status 200⟩
        ⟨[], none⟩).calls = [] ∧
    (trigger_flow ⟨none, [("FLOW_URL", "u"), ("LAUNCH_KEY", "sek")]⟩
        ⟨"legacy_flow", "ip", "UA", "Ola", "bad", 0, "t0", .status 200⟩
        ⟨[], none⟩).outcome = .accessDenied ∧
    (trigger_flow ⟨none, [("FLOW_URL", "u"), ("LAUNCH_KEY", "sek")]⟩
        ⟨"legacy_flow", "ip", "UA", "Ola", "bad", 0, "t0", .status 200⟩
        ⟨[], none⟩).state.log =
      some [CSV_HEADER,
        ["t0", "legacy_flow", "🤖 Legacy RPA Flow", "Ola", "ACCESS_DENIED", "", "ip", "UA"]] := by
  have h := claim_C4 ⟨none, [("FLOW_URL", "u"), ("LAUNCH_KEY", "sek")]⟩
      ⟨"legacy_flow", "ip", "UA", "Ola", "bad", 0, "t0", .status 200⟩
      ⟨[], none⟩
      ⟨"legacy_flow", "🤖 Legacy RPA Flow", "Original single flow configuration", "u", "sek"⟩
      (by decide) (by decide) (by decide) (by decide) (by decide)
  refine ⟨h.1, h.2.1, ?_⟩
  rw [h.2.2]
  decide

/-- C5: for a trigger request with an existing flow that passes the rate
check, an empty trimmed name or key makes no outbound call and appends
exactly one `VALIDATION_ERROR` audit row whose name field is the literal
`"EMPTY"` exactly when the trimmed name is blank, and the trimmed name
otherwise. -/
theorem claim_C5 (cfg : Config) (req : TriggerRequest) (st : ServerState) (flow : Flow)
    (hf : (load_flows cfg).find? (fun f => f.id == req.flow_id) = some flow)
    (hr : (check_rate_limit req.now st.rate_limits req.client_ip).1 = true)
    (hv : pyStrip req.form_name = "" ∨ pyStrip req.form_key = "") :
    (trigger_flow cfg req st).calls = [] ∧
    (trigger_flow cfg req st).outcome = .validationError ∧
    (trigger_flow cfg req st).state.log = some (logInit st.log ++
      [[req.time_utc, req.flow_id, flow.title,
        (if pyStrip req.form_name = "" then "EMPTY" else pyStrip req.form_name),
        "VALIDATION_ERROR", "", req.client_ip, truncateUA req.user_agent]]) := by
  rw [trigger_flow_invalid cfg req st flow hf hr hv]
  refine ⟨rfl, rfl, ?_⟩
  rw [show (some (log_trigger req.time_utc req.flow_id flow.title
      (if pyStrip req.form_name = "" then "EMPTY" else pyStrip req.form_name)
      "VALIDATION_ERROR" none (some req.client_ip) (some req.user_agent) st.log) :
        Option (List (List String))) =
      some (logInit st.log ++ [auditRow req.time_utc req.flow_id flow.title
        (if pyStrip req.form_name = "" then "EMPTY" else pyStrip req.form_name)
        "VALIDATION_ERROR" none (some req.client_ip) (some req.user_agent)])
    from congrArg some (log_trigger_eq _ _ _ _ _ _ _ _ _)]
  rw [auditRow_none]

/-- Witness for C5: empty name and empty key log one row with name field
`"EMPTY"` and status `VALIDATION_ERROR`, and no call is made. -/
theorem claim_C5_witness :
    (trigger_flow ⟨none, [("FLOW_URL", "u"), ("LAUNCH_KEY", "sek")]⟩
        ⟨"legacy_flow", "ip", "UA", "  ", "", 0, "t0", .status 200⟩
        ⟨[], none⟩).calls = [] ∧
    (trigger_flow ⟨none, [("FLOW_URL", "u"), ("LAUNCH_KEY", "sek")]⟩
        ⟨"legacy_flow", "ip", "UA", "  ", "", 0, "t0", .status 200⟩
        ⟨[], none⟩).state.log =
      some [CSV_HEADER,
        ["t0", "legacy_flow", "🤖 Legacy RPA Flow", "EMPTY", "VALIDATION_ERROR",
         "", "ip", "UA"]] := by
  have h := claim_C5 ⟨none, [("FLOW_URL", "u"), ("LAUNCH_KEY", "sek")]⟩
      ⟨"legacy_flow", "ip", "UA", "  ", "", 0, "t0", .status 200⟩
      ⟨[], none⟩
      ⟨"legacy_flow", "🤖 Legacy RPA Flow", "Original single flow configuration", "u", "sek"⟩
      (by decide) (by decide) (Or.inl (by decide))
  refine ⟨h.1, ?_⟩
  rw [h.2.2]
  decide

/-- C9: the not-found and rate-limited outcomes append no audit record and
redirect the caller (to the dashboard, resp. the flow login page), while
every other terminal outcome appends exactly one audit record before
redirecting to the flow login page. -/
theorem claim_C9 (cfg : Config) (req : TriggerRequest) (st : ServerState) :
    ((trigger_flow cfg req st).outcome = .notFound →
      (trigger_flow cfg req st).state = st ∧
      (trigger_flow cfg req st).redirect = .dashboard) ∧
    ((trigger_flow cfg req st).outcome = .rateLimited →
      (trigger_flow cfg req st).state.log = st.log ∧
      (trigger_flow cfg req st).redirect = .flowLogin req.flow_id) ∧
    ((trigger_flow cfg req st).outcome ≠ .notFound →
      (trigger_flow cfg req st).outcome ≠ .rateLimited →
      (∃ row, (trigger_flow cfg req st).state.log = some (logInit st.log ++ [row])) ∧
      (trigger_flow cfg req st).redirect = .flowLogin req.flow_id) := by
  rcases hf : (load_flows cfg).find? (fun f => f.id == req.flow_id) with _ | flow
  · rw [trigger_flow_notFound cfg req st hf]
    exact ⟨fun _ => ⟨rfl, rfl⟩, fun h => Outcome.noConfusion h, fun hn _ => absurd rfl hn⟩
  · cases hrb : (check_rate_limit req.now st.rate_limits req.client_ip).1 with
    | false =>
      rw [trigger_flow_rateLimited cfg req st flow hf hrb]
      exact ⟨fun h => Outcome.noConfusion h, fun _ => ⟨rfl, rfl⟩, fun _ hn => absurd rfl hn⟩
    | true =>
      by_cases hv : pyStrip req.form_name = "" ∨ pyStrip req.form_key = ""
      · rw [trigger_flow_invalid cfg req st flow hf hrb hv]
        exact ⟨fun h => Outcome.noConfusion h, fun h => Outcome.noConfusion h,
          fun _ _ => ⟨⟨_, congrArg some (log_trigger_eq _ _ _ _ _ _ _ _ _)⟩, rfl⟩⟩
      · push_neg at hv
        obtain ⟨hn, hk⟩ := hv
        by_cases hd : pyStrip req.form_key = flow.launch_key
        · cases hh : req.http with
          | status code =>
            by_cases hc : code = 200 ∨ code = 202
            · rw [trigger_flow_ok cfg req st flow code hf hrb hn hk hd hh hc]
              exact ⟨fun h => Outcome.noConfusion h, fun h => Outcome.noConfusion h,
                fun _ _ => ⟨⟨_, congrArg some (log_trigger_eq _ _ _ _ _ _ _ _ _)⟩, rfl⟩⟩
            · rw [trigger_flow_httpErr cfg req st flow code hf hrb hn hk hd hh hc]
              exact ⟨fun h => Outcome.noConfusion h, fun h => Outcome.noConfusion h,
                fun _ _ => ⟨⟨_, congrArg some (log_trigger_eq _ _ _ _ _ _ _ _ _)⟩, rfl⟩⟩
          | exc =>
            rw [trigger_flow_exc cfg req st flow hf hrb hn hk hd hh]
            exact ⟨fun h => Outcome.noConfusion h, fun h => Outcome.noConfusion h,
              fun _ _ => ⟨⟨_, congrArg some (log_trigger_eq _ _ _ _ _ _ _ _ _)⟩, rfl⟩⟩
        · rw [trigger_flow_denied cfg req st flow hf hrb hn hk hd]
          exact ⟨fun h => Outcome.noConfusion h, fun h => Outcome.noConfusion h,
            fun _ _ => ⟨⟨_, congrArg some (log_trigger_eq _ _ _ _ _ _ _ _ _)⟩, rfl⟩⟩

/-- Witness for C9: a concrete validation error appends one record and
redirects to the flow login page. -/
theorem claim_C9_witness :
    (∃ row, (trigger_flow ⟨none, [("FLOW_URL", "u"), ("LAUNCH_KEY", "sek")]⟩
        ⟨"legacy_flow", "ip", "UA", "", "", 0, "t0", .status 200⟩
        ⟨[], none⟩).state.log = some (logInit none ++ [row])) ∧
    (trigger_flow ⟨none, [("FLOW_URL", "u"), ("LAUNCH_KEY", "sek")]⟩
        ⟨"legacy_flow", "ip", "UA", "", "", 0, "t0", .status 200⟩
        ⟨[], none⟩).redirect = .flowLogin "legacy_flow" := by
  exact (claim_C9 ⟨none, [("FLOW_URL", "u"), ("LAUNCH_KEY", "sek")]⟩
      ⟨"legacy_flow", "ip", "UA", "", "", 0, "t0", .status 200⟩
      ⟨[], none⟩).2.2 (by decide) (by decide)

/-- C10: the flow lookup precedes the rate check, which precedes
validation: a request for a non-existent flow id leaves the whole state
(rate limits included) unchanged, a request for an existing flow always
stores the checked record for the client, and a request that fails
validation or the secret check has still recorded its rate-limit
timestamp. -/
theorem claim_C10 (cfg : Config) (req : TriggerRequest) (st : ServerState) :
    ((load_flows cfg).find? (fun f => f.id == req.flow_id) = none →
      trigger_flow cfg req st = ⟨.notFound, .dashboard, [], st⟩) ∧
    (∀ flow, (load_flows cfg).find? (fun f => f.id == req.flow_id) = some flow →
      (trigger_flow cfg req st).state.rate_limits =
        setRate st.rate_limits req.client_ip
          (rateCheckRecord req.now (getRate st.rate_limits req.client_ip)).2) ∧
    (((trigger_flow cfg req st).outcome = .validationError ∨
      (trigger_flow cfg req st).outcome = .accessDenied) →
      req.now ∈ getRate (trigger_flow cfg req st).state.rate_limits req.client_ip) := by
  refine ⟨fun hf => trigger_flow_notFound cfg req st hf, ?_, ?_⟩
  · intro flow hf
    exact trigger_flow_rate_update cfg req st flow hf
  · intro h
    rcases hf : (load_flows cfg).find? (fun f => f.id == req.flow_id) with _ | flow
    · rw [trigger_flow_notFound cfg req st hf] at h
      rcases h with h | h <;> exact Outcome.noConfusion h
    · cases hrb : (check_rate_limit req.now st.rate_limits req.client_ip).1 with
      | false =>
        rw [trigger_flow_rateLimited cfg req st flow hf hrb] at h
        rcases h with h | h <;> exact Outcome.noConfusion h
      | true => exact trigger_flow_now_mem cfg req st flow hf hrb

/-- Witness for C10: a non-existent flow id leaves the state untouched, and
a concrete denied attempt has consumed a rate slot. -/
theorem claim_C10_witness :
    trigger_flow ⟨none, []⟩ ⟨"nope", "ip", "UA", "Ola", "bad", 7, "t0", .status 200⟩
        ⟨[("ip", [1, 2])], none⟩ =
      ⟨.notFound, .dashboard, [], ⟨[("ip", [1, 2])], none⟩⟩ ∧
    (7 : Int) ∈ getRate (trigger_flow ⟨none, [("FLOW_URL", "u"), ("LAUNCH_KEY", "sek")]⟩
        ⟨"legacy_flow", "ip", "UA", "Ola", "bad", 7, "t0", .status 200⟩
        ⟨[], none⟩).state.rate_limits "ip" := by
  constructor
  · exact (claim_C10 ⟨none, []⟩ ⟨"nope", "ip", "UA", "Ola", "bad", 7, "t0", .status 200⟩
      ⟨[("ip", [1, 2])], none⟩).1 (by decide)
  · exact (claim_C10 ⟨none, [("FLOW_URL", "u"), ("LAUNCH_KEY", "sek")]⟩
      ⟨"legacy_flow", "ip", "UA", "Ola", "bad", 7, "t0", .status 200⟩
      ⟨[], none⟩).2.2 (Or.inr (by decide))

end App
